import Mathlib

/-!
Verification of the RMCP+/RAKP server session machine of
`pyghmi/ipmi/private/serversession.py`.

The Python methods are embedded shallowly: byte strings become `List Nat`,
attribute reads of fields that may not have been assigned yet go through
`Option` (an unset attribute raises `AttributeError`), and every handler is a
function from its inputs and the session state to an `Except PyErr` value
carrying the new state and the payloads handed to `send_payload` /
`_send_ipmi_net_payload`.  Randomness (`os.urandom`) is passed in as an
explicit argument, and the HMAC-SHA1 primitive of the `hmac`/`hashlib`
standard libraries is a parameter `hmacSha1 : Bytes → Bytes → Bytes` of the
handlers, so all theorems hold for the real primitive in particular.

The `Except` monad discards assignments made before a raise; the theorems
below only use error results at points where the source raises before its
first assignment, so no claim depends on the lost partial state.
-/

namespace Pyghmi

/-- Byte strings are lists of naturals; each entry stands for one octet. -/
abbrev Bytes := List Nat

/-- Exceptions the embedded Python code can raise. -/
inductive PyErr where
  | attributeError (field : String)
  | indexError
  | structError
  | typeError
deriving DecidableEq

/-- `b[i]` on a Python bytearray: the byte at index `i`, or `IndexError`. -/
def idx (b : Bytes) (i : Nat) : Except PyErr Nat :=
  match b[i]? with
  | some v => Except.ok v
  | none => Except.error PyErr.indexError

/-- Reading `self.f` when the attribute may not have been assigned yet:
`AttributeError` when it is unset. -/
def attr {α : Type} (o : Option α) (f : String) : Except PyErr α :=
  match o with
  | some v => Except.ok v
  | none => Except.error (PyErr.attributeError f)

/-- Python `struct.unpack` with the little-endian u32 format: decodes exactly
four bytes, `struct.error` otherwise. -/
def unpackLEu32 (b : Bytes) : Except PyErr Nat :=
  match b with
  | [b0, b1, b2, b3] => Except.ok (b0 + 256 * b1 + 65536 * b2 + 16777216 * b3)
  | _ => Except.error PyErr.structError

/-- `self.confalgo` and `self.integrityalgo` start out as the integer 0 and are
later assigned the strings `aes` and `sha1`; this sum mirrors that dynamic
typing. -/
inductive AlgoSetting where
  | num (n : Nat)
  | name (s : String)
deriving DecidableEq

/-- One `send_payload` call: the payload bytes plus the RMCP+ payload type.
The numeric payload types come from `constants.payload_types`, which is not
among the sources.  Modelled from the spec: payload type 0x11 is the open
session response, 0x13 is RAKP2, 0x15 is RAKP4. -/
structure Emit where
  payload : Bytes
  ptype : Nat
deriving DecidableEq

/-- One `_send_ipmi_net_payload` call: IPMI completion code plus response
data. -/
structure IpmiResp where
  code : Nat
  data : Bytes
deriving DecidableEq

/-- The decoded inner IPMI request handed to `handle_client_request`. -/
structure IpmiRequest where
  netfn : Nat
  command : Nat
  data : Bytes
deriving DecidableEq

/-- State of a `ServerSession`.  Fields assigned only later in the handshake
(`self.Rm`, `self.sik`, ...) are `Option`s that start out `none`; `active`
records whether `self.ipmicallback` has been pointed at
`handle_client_request` (the RAKP4 transition). -/
structure ServerSession where
  authdata : List (Bytes × Bytes)
  kg : Option Bytes
  uuid : Bytes
  clientsessionid : Bytes := []
  managedsessionid : Bytes := []
  privlevel : Nat := 0
  sequencenumber : Nat := 0
  sessionid : Nat := 0
  integrityalgo : AlgoSetting := AlgoSetting.num 0
  confalgo : AlgoSetting := AlgoSetting.num 0
  Rm : Option Bytes := none
  rolem : Option Nat := none
  maxpriv : Option Nat := none
  username : Option Bytes := none
  kuid : Option Bytes := none
  Rc : Option Bytes := none
  uuiddata : Option Bytes := none
  sik : Option Bytes := none
  k1 : Option Bytes := none
  k2 : Option Bytes := none
  aeskey : Option Bytes := none
  localsid : Option Nat := none
  active : Bool := false
  clientpriv : Option Nat := none
deriving DecidableEq

/-- Session state as `ServerSession.__init__` leaves it before producing the
open session response: `authdata`, `kg` and the BMC UUID are stored, every
handshake field is still unset.  The username→password store is a dictionary
over byte strings (`decode`/`encode` between `str` and UTF-8 bytes is treated
as the identity on byte strings). -/
def initSession (authdata : List (Bytes × Bytes)) (kg : Option Bytes)
    (uuidBytes : Bytes) : ServerSession :=
  { authdata := authdata, kg := kg, uuid := uuidBytes }

/-- `create_open_session_response`: store the client session id from bytes
4..8 of the request, store the four random bytes (`os.urandom(4)`, passed in
as `rand4`) as the managed session id, force `privlevel = 4`, and build the
response announcing cipher suite 3. -/
def create_open_session_response (request : Bytes) (rand4 : Bytes)
    (s : ServerSession) : Except PyErr (ServerSession × Bytes) := do
  let clienttag ← idx request 0
  let s := { s with clientsessionid := (request.drop 4).take 4,
                    managedsessionid := rand4,
                    privlevel := 4 }
  let response := [clienttag, 0, s.privlevel, 0] ++ s.clientsessionid
      ++ s.managedsessionid
      ++ [0, 0, 0, 8, 1, 0, 0, 0,
          1, 0, 0, 8, 1, 0, 0, 0,
          2, 0, 0, 8, 1, 0, 0, 0]
  return (s, response)

/-- `_got_rakp1`: record `R_m`, the role byte and `maxpriv`; drop on a zero
name-present byte or an unknown username; otherwise draw `R_c`
(`os.urandom(16)`, passed in as `rand16`), default `kg` to `kuid`, and emit
the RAKP2 message with its HMAC-SHA1 authcode. -/
def got_rakp1 (hmacSha1 : Bytes → Bytes → Bytes) (data : Bytes) (rand16 : Bytes)
    (s : ServerSession) : Except PyErr (ServerSession × List Emit) := do
  let clienttag ← idx data 0
  let rm := (data.drop 8).take 16
  let rolem ← idx data 24
  let s := { s with Rm := some rm, rolem := some rolem,
                    maxpriv := some (rolem &&& 7) }
  let namepresent ← idx data 27
  if namepresent = 0 then
    return (s, [])
  let username := data.drop 28
  let s := { s with username := some username }
  match s.authdata.lookup username with
  | none => return (s, [])
  | some password => do
    let uuidbytes := s.uuid
    let s := { s with uuiddata := some uuidbytes, Rc := some rand16 }
    let hmacdata := s.clientsessionid ++ s.managedsessionid ++ rm ++ rand16
        ++ uuidbytes ++ [rolem, username.length] ++ username
    let s := { s with kuid := some password }
    let s := if s.kg = none then { s with kg := some password } else s
    let authcode := hmacSha1 password hmacdata
    let newmessage := [clienttag, 0, 0, 0] ++ s.clientsessionid ++ rand16
        ++ uuidbytes ++ authcode
    return (s, [⟨newmessage, 0x13⟩])

/-- `_send_rakp4`: build the RAKP4 payload whose trailer is the first 12
bytes of `HMAC-SHA1(sik, R_m || managed_session_id || uuid)`, then record the
active-session bookkeeping (`confalgo`, `integrityalgo`, `sequencenumber`,
`sessionid`).  The source unpacks `clientsessionid` as a little-endian u32
after sending; the handshake theorems assume a 4-byte client session id, where
the order of the send and the unpack is unobservable. -/
def send_rakp4 (hmacSha1 : Bytes → Bytes → Bytes) (tagvalue statuscode : Nat)
    (s : ServerSession) : Except PyErr (ServerSession × List Emit) := do
  let payload := [tagvalue, statuscode, 0, 0] ++ s.clientsessionid
  let rm ← attr s.Rm "Rm"
  let uuiddata ← attr s.uuiddata "uuiddata"
  let hmacdata := rm ++ s.managedsessionid ++ uuiddata
  let sik ← attr s.sik "sik"
  let authdata := (hmacSha1 sik hmacdata).take 12
  let payload := payload ++ authdata
  let sid ← unpackLEu32 s.clientsessionid
  let s := { s with confalgo := AlgoSetting.name "aes",
                    integrityalgo := AlgoSetting.name "sha1",
                    sequencenumber := 1,
                    sessionid := sid }
  return (s, [⟨payload, 0x15⟩])

/-- `_got_rakp3`: derive `sik`, `k1`, `k2` and `aeskey` (assigned before any
check), compare the received authcode bytes `data[8:]` against
`HMAC-SHA1(kuid, R_c || client_sid || [role_m, |u|] || u)`, drop on mismatch
or on a nonzero status byte, otherwise record `localsid`, point the callback
at `handle_client_request` (`active := true`) and send RAKP4.  Attribute
reads follow the evaluation order of the source, so a session that never processed
RAKP1 fails at `self.Rm`. -/
def got_rakp3 (hmacSha1 : Bytes → Bytes → Bytes) (data : Bytes)
    (s : ServerSession) : Except PyErr (ServerSession × List Emit) := do
  let rm ← attr s.Rm "Rm"
  let rc ← attr s.Rc "Rc"
  let rmrc := rm ++ rc
  let kg ← match s.kg with
    | some k => Except.ok k
    | none => Except.error PyErr.typeError
  let rolem ← attr s.rolem "rolem"
  let username ← attr s.username "username"
  let sik := hmacSha1 kg (rmrc ++ [rolem, username.length] ++ username)
  let s := { s with sik := some sik }
  let k1 := hmacSha1 sik (List.replicate 20 1)
  let k2 := hmacSha1 sik (List.replicate 20 2)
  let s := { s with k1 := some k1, k2 := some k2, aeskey := some (k2.take 16) }
  let kuid ← attr s.kuid "kuid"
  let hmacdata := rc ++ s.clientsessionid ++ [rolem, username.length] ++ username
  let expectedauthcode := hmacSha1 kuid hmacdata
  let authcode := data.drop 8
  if expectedauthcode ≠ authcode then
    return (s, [])
  let clienttag ← idx data 0
  let status ← idx data 1
  if status ≠ 0 then
    return (s, [])
  let localsid ← unpackLEu32 s.managedsessionid
  let s := { s with localsid := some localsid, active := true }
  send_rakp4 hmacSha1 clienttag 0 s

/-- Modelled from the spec: `_send_ipmi_net_payload` (defined in the parent
class, which is not among the sources) frames and sends one IPMI response
carrying a completion code and data, and `seq_out` increments after each
emitted response. -/
def send_ipmi_net_payload (code : Nat) (d : Bytes) (s : ServerSession) :
    ServerSession × List IpmiResp :=
  ({ s with sequencenumber := s.sequencenumber + 1 }, [⟨code, d⟩])

/-- `close_server_session` in the source is `pass`: it changes nothing. -/
def close_server_session (s : ServerSession) : ServerSession := s

/-- `send_ipmi_response` with its default arguments `data=[]`, `code=0`. -/
def send_ipmi_response (s : ServerSession) : ServerSession × List IpmiResp :=
  send_ipmi_net_payload 0 [] s

/-- `IpmiServer.handle_raw_request`: every command the BMC does not know is
answered with completion code 0xc1. -/
def handle_raw_request (s : ServerSession) : ServerSession × List IpmiResp :=
  send_ipmi_net_payload 0xc1 [] s

/-- `handle_client_request`: Set Session Privilege Level (netfn 6, cmd 0x3b)
with its `returncode`/`clientpriv` dance, Close Session (netfn 6, cmd 0x3c)
which responds and then calls the no-op `close_server_session`, and the
fall-through to `bmc.handle_raw_request`.  Note the source answers 0x3b with
`data=[self.clientpriv]` in every branch, an `AttributeError` when no
privilege was ever set. -/
def handle_client_request (request : IpmiRequest) (s : ServerSession) :
    Except PyErr (ServerSession × List IpmiResp) := do
  if request.netfn = 6 ∧ request.command = 0x3b then do
    let pendingpriv ← idx request.data 0
    let returncode := 0
    let (returncode, s) ←
      if pendingpriv > 1 then do
        let maxpriv ← attr s.maxpriv "maxpriv"
        if pendingpriv > maxpriv then
          Except.ok (0x81, s)
        else do
          let v ← idx request.data 0
          Except.ok (returncode, { s with clientpriv := some v })
      else
        Except.ok (returncode, s)
    let cp ← attr s.clientpriv "clientpriv"
    return send_ipmi_net_payload returncode [cp] s
  else if request.netfn = 6 ∧ request.command = 0x3c then do
    let (s, out) := send_ipmi_response s
    let s := close_server_session s
    return (s, out)
  else
    return handle_raw_request s

/-- Spec formula: `SIK = HMAC-SHA1(k_g, R_m || R_c || [role_m, |username|] ||
username)`. -/
def spec_SIK (hmacSha1 : Bytes → Bytes → Bytes) (kg rm rc : Bytes)
    (rolem : Nat) (u : Bytes) : Bytes :=
  hmacSha1 kg (rm ++ rc ++ [rolem, u.length] ++ u)

/-- Spec formula: `K1 = HMAC-SHA1(SIK, 0x01×20)`. -/
def spec_K1 (hmacSha1 : Bytes → Bytes → Bytes) (sik : Bytes) : Bytes :=
  hmacSha1 sik (List.replicate 20 1)

/-- Spec formula: `K2 = HMAC-SHA1(SIK, 0x02×20)`. -/
def spec_K2 (hmacSha1 : Bytes → Bytes → Bytes) (sik : Bytes) : Bytes :=
  hmacSha1 sik (List.replicate 20 2)

/-- Spec formula: `AES_KEY = K2[0..16]`. -/
def spec_AESKey (k2 : Bytes) : Bytes :=
  k2.take 16

/-!  Concrete fixtures used by the witness and counterexample theorems: a
degenerate HMAC instantiation, a one-user credential store, and session states
produced by running the handlers on concrete packets. -/

/-- Degenerate HMAC instantiation for witnesses: constant `[7]`. -/
def hmTest : Bytes → Bytes → Bytes := fun _ _ => [7]

/-- Degenerate HMAC instantiation with 20-byte output for witnesses. -/
def hm20Test : Bytes → Bytes → Bytes := fun _ _ => List.replicate 20 0

/-- Credential store mapping username `[117]` to password `[112]`. -/
def authTest : List (Bytes × Bytes) := [([117], [112])]

/-- A concrete RAKP1 packet: tag 1, role byte 4, name-present 1,
username `[117]`. -/
def dataRakp1Test : Bytes := 1 :: (List.replicate 23 0 ++ [4, 0, 0, 1, 117])

/-- Fresh session over `authTest` with no configured `kg` and an empty UUID. -/
def s0Test : ServerSession := initSession authTest none []

/-- Session state after the open session response, before RAKP1. -/
def sOpenTest : ServerSession :=
  { s0Test with clientsessionid := [1, 2, 3, 4],
                managedsessionid := [5, 6, 7, 8], privlevel := 4 }

/-- Session state after `got_rakp1 hmTest dataRakp1Test [] s0Test`. -/
def s1Test : ServerSession :=
  { s0Test with Rm := some (List.replicate 16 0), rolem := some 4,
                maxpriv := some 4, username := some [117],
                uuiddata := some [], Rc := some [],
                kuid := some [112], kg := some [112] }

/-- Session state after a RAKP3 with a non-matching authcode at `s1Test`. -/
def s2Test : ServerSession :=
  { s1Test with sik := some [7], k1 := some [7], k2 := some [7],
                aeskey := some [7] }

/-- `s1Test` with 4-byte session ids, for exercising the RAKP4 path. -/
def sC1Test : ServerSession :=
  { s1Test with clientsessionid := [1, 2, 3, 4],
                managedsessionid := [5, 6, 7, 8] }

/-- Post-open-session state with 16-byte UUID, for the RAKP2 witness. -/
def sC3Test : ServerSession :=
  { initSession authTest none (List.replicate 16 9) with
      clientsessionid := [1, 2, 3, 4], managedsessionid := [5, 6, 7, 8] }

/-- Active session with `maxpriv = 2` and a previously set privilege 3. -/
def sPrivTest : ServerSession :=
  { s1Test with maxpriv := some 2, clientpriv := some 3 }

/-!  Characterization lemmas for the handlers, shared by the claim theorems
below. -/

/-- `create_open_session_response` fully characterized. -/
theorem open_session_response_spec (request rand4 : Bytes) (s : ServerSession)
    (tag : Nat) (h : request[0]? = some tag) :
    create_open_session_response request rand4 s =
      Except.ok ({ s with clientsessionid := (request.drop 4).take 4,
                          managedsessionid := rand4, privlevel := 4 },
        [tag, 0, 4, 0] ++ (request.drop 4).take 4 ++ rand4
          ++ [0, 0, 0, 8, 1, 0, 0, 0,
              1, 0, 0, 8, 1, 0, 0, 0,
              2, 0, 0, 8, 1, 0, 0, 0]) := by
  simp [create_open_session_response, idx, h]

/-- `_got_rakp1` fully characterized on a known username. -/
theorem got_rakp1_spec (hm : Bytes → Bytes → Bytes) (data rand16 : Bytes)
    (s : ServerSession) (tag ro np : Nat) (pw : Bytes)
    (h0 : data[0]? = some tag) (h24 : data[24]? = some ro)
    (h27 : data[27]? = some np) (hnp : np ≠ 0)
    (hlook : s.authdata.lookup (data.drop 28) = some pw) :
    got_rakp1 hm data rand16 s =
      Except.ok
        ({ s with Rm := some ((data.drop 8).take 16), rolem := some ro,
                  maxpriv := some (ro &&& 7),
                  username := some (data.drop 28),
                  uuiddata := some s.uuid, Rc := some rand16,
                  kuid := some pw,
                  kg := some (s.kg.getD pw) },
         [⟨[tag, 0, 0, 0] ++ s.clientsessionid ++ rand16 ++ s.uuid
            ++ hm pw (s.clientsessionid ++ s.managedsessionid
              ++ (data.drop 8).take 16 ++ rand16 ++ s.uuid
              ++ [ro, (data.drop 28).length] ++ data.drop 28), 0x13⟩]) := by
  cases hkg : s.kg with
  | none => simp [got_rakp1, idx, h0, h24, h27, hnp, hlook, hkg, bind,
      Except.bind, pure, Except.pure]
  | some k => simp [got_rakp1, idx, h0, h24, h27, hnp, hlook, hkg, bind,
      Except.bind, pure, Except.pure]

/-- `_got_rakp3` on a non-matching authcode: keys derived, nothing sent. -/
theorem got_rakp3_drop_mismatch (hm : Bytes → Bytes → Bytes) (data : Bytes)
    (s : ServerSession) (rm rc u kgv ku : Bytes) (ro : Nat)
    (hRm : s.Rm = some rm) (hRc : s.Rc = some rc) (hkg : s.kg = some kgv)
    (hro : s.rolem = some ro) (hu : s.username = some u) (hku : s.kuid = some ku)
    (hne : hm ku (rc ++ s.clientsessionid ++ [ro, u.length] ++ u) ≠ data.drop 8) :
    got_rakp3 hm data s =
      Except.ok
        ({ s with sik := some (spec_SIK hm kgv rm rc ro u),
                  k1 := some (spec_K1 hm (spec_SIK hm kgv rm rc ro u)),
                  k2 := some (spec_K2 hm (spec_SIK hm kgv rm rc ro u)),
                  aeskey := some (spec_AESKey (spec_K2 hm (spec_SIK hm kgv rm rc ro u))) },
         []) := by
  have hne2 : hm ku (rc ++ (s.clientsessionid ++ ro :: u.length :: u)) ≠ List.drop 8 data := by
    simpa using hne
  simp [got_rakp3, attr, hRm, hRc, hkg, hro, hu, hku, hne2,
    spec_SIK, spec_K1, spec_K2, spec_AESKey, bind, Except.bind, pure, Except.pure]

/-- `_got_rakp3` on a nonzero RAKP3 status byte: keys derived, nothing
sent. -/
theorem got_rakp3_drop_badstatus (hm : Bytes → Bytes → Bytes) (data : Bytes)
    (s : ServerSession) (rm rc u kgv ku : Bytes) (ro tag st : Nat)
    (hRm : s.Rm = some rm) (hRc : s.Rc = some rc) (hkg : s.kg = some kgv)
    (hro : s.rolem = some ro) (hu : s.username = some u) (hku : s.kuid = some ku)
    (h0 : data[0]? = some tag) (h1 : data[1]? = some st) (hst : st ≠ 0) :
    got_rakp3 hm data s =
      Except.ok
        ({ s with sik := some (spec_SIK hm kgv rm rc ro u),
                  k1 := some (spec_K1 hm (spec_SIK hm kgv rm rc ro u)),
                  k2 := some (spec_K2 hm (spec_SIK hm kgv rm rc ro u)),
                  aeskey := some (spec_AESKey (spec_K2 hm (spec_SIK hm kgv rm rc ro u))) },
         []) := by
  simp [got_rakp3, attr, idx, hRm, hRc, hkg, hro, hu, hku, h0, h1, hst,
    spec_SIK, spec_K1, spec_K2, spec_AESKey, bind, Except.bind, pure, Except.pure]

/-- `_got_rakp3` on a matching authcode and zero status: RAKP4 emitted,
session activated. -/
theorem got_rakp3_good (hm : Bytes → Bytes → Bytes) (data : Bytes)
    (s : ServerSession) (rm rc u kgv ku ud : Bytes) (ro tag msid csid : Nat)
    (hRm : s.Rm = some rm) (hRc : s.Rc = some rc) (hkg : s.kg = some kgv)
    (hro : s.rolem = some ro) (hu : s.username = some u) (hku : s.kuid = some ku)
    (hud : s.uuiddata = some ud)
    (heq : hm ku (rc ++ s.clientsessionid ++ [ro, u.length] ++ u) = data.drop 8)
    (h0 : data[0]? = some tag) (h1 : data[1]? = some 0)
    (hms : unpackLEu32 s.managedsessionid = Except.ok msid)
    (hcs : unpackLEu32 s.clientsessionid = Except.ok csid) :
    got_rakp3 hm data s =
      Except.ok
        ({ s with sik := some (spec_SIK hm kgv rm rc ro u),
                  k1 := some (spec_K1 hm (spec_SIK hm kgv rm rc ro u)),
                  k2 := some (spec_K2 hm (spec_SIK hm kgv rm rc ro u)),
                  aeskey := some (spec_AESKey (spec_K2 hm (spec_SIK hm kgv rm rc ro u))),
                  localsid := some msid, active := true,
                  confalgo := AlgoSetting.name "aes",
                  integrityalgo := AlgoSetting.name "sha1",
                  sequencenumber := 1, sessionid := csid },
         [⟨[tag, 0, 0, 0] ++ s.clientsessionid
            ++ (hm (spec_SIK hm kgv rm rc ro u)
                  (rm ++ s.managedsessionid ++ ud)).take 12, 0x15⟩]) := by
  have heq2 : hm ku (rc ++ (s.clientsessionid ++ ro :: u.length :: u)) = List.drop 8 data := by
    simpa using heq
  simp [got_rakp3, send_rakp4, attr, idx, hRm, hRc, hkg, hro, hu, hku, hud,
    heq2, h0, h1, hms, hcs,
    spec_SIK, spec_K1, spec_K2, spec_AESKey, bind, Except.bind, pure, Except.pure]

/-- `_send_rakp4` never touches the derived keys or the active flag. -/
theorem send_rakp4_fields (hm : Bytes → Bytes → Bytes) (t c : Nat)
    (s s2 : ServerSession) (out : List Emit)
    (h : send_rakp4 hm t c s = Except.ok (s2, out)) :
    s2.sik = s.sik ∧ s2.k1 = s.k1 ∧ s2.k2 = s.k2 ∧ s2.aeskey = s.aeskey
      ∧ s2.active = s.active := by
  simp only [send_rakp4, bind, Except.bind, pure, Except.pure] at h
  cases cRm : s.Rm with
  | none => simp [attr, cRm] at h
  | some rm =>
  simp only [attr, cRm] at h
  cases cud : s.uuiddata with
  | none => simp [cud] at h
  | some ud =>
  simp only [cud] at h
  cases csik : s.sik with
  | none => simp [csik] at h
  | some sikv =>
  simp only [csik] at h
  cases ccs : unpackLEu32 s.clientsessionid with
  | error e => simp [ccs] at h
  | ok sid =>
  simp only [ccs] at h
  cases h
  simp [csik]

/-- Whatever `_got_rakp3` returns successfully, the derived keys of the
resulting state are exactly the key schedule of the handshake
parameters. -/
theorem got_rakp3_keys (hm : Bytes → Bytes → Bytes) (data : Bytes)
    (s s2 : ServerSession) (out : List Emit) (rm rc u kgv ku : Bytes) (ro : Nat)
    (hRm : s.Rm = some rm) (hRc : s.Rc = some rc) (hkg : s.kg = some kgv)
    (hro : s.rolem = some ro) (hu : s.username = some u) (hku : s.kuid = some ku)
    (h : got_rakp3 hm data s = Except.ok (s2, out)) :
    s2.sik = some (spec_SIK hm kgv rm rc ro u)
    ∧ s2.k1 = some (spec_K1 hm (spec_SIK hm kgv rm rc ro u))
    ∧ s2.k2 = some (spec_K2 hm (spec_SIK hm kgv rm rc ro u))
    ∧ s2.aeskey = some (spec_AESKey (spec_K2 hm (spec_SIK hm kgv rm rc ro u))) := by
  simp only [got_rakp3, attr, hRm, hRc, hkg, hro, hu, hku, bind, Except.bind,
    pure, Except.pure] at h
  by_cases hne : hm ku (rc ++ (s.clientsessionid ++ ro :: u.length :: u)) = List.drop 8 data
  case neg =>
    rw [if_pos (by simpa using hne)] at h
    cases h
    simp [spec_SIK, spec_K1, spec_K2, spec_AESKey]
  case pos =>
    rw [if_neg (by simpa using hne)] at h
    cases c0 : data[0]? with
    | none => simp [idx, c0] at h
    | some tag =>
    simp only [idx, c0] at h
    cases c1 : data[1]? with
    | none => simp [c1] at h
    | some st =>
    simp only [c1] at h
    by_cases hst : st = 0
    case neg =>
      rw [if_pos hst] at h
      cases h
      simp [spec_SIK, spec_K1, spec_K2, spec_AESKey]
    case pos =>
      rw [if_neg (not_not_intro hst)] at h
      cases cm : unpackLEu32 s.managedsessionid with
      | error e => simp [cm] at h
      | ok msid =>
      simp only [cm] at h
      have hf := send_rakp4_fields hm tag 0 _ s2 out h
      simp only [hf.1, hf.2.1, hf.2.2.1, hf.2.2.2.1]
      simp [spec_SIK, spec_K1, spec_K2, spec_AESKey]

/-- A four-byte string always unpacks as a little-endian u32. -/
theorem unpackLEu32_ok (b : Bytes) (h : b.length = 4) :
    ∃ v, unpackLEu32 b = Except.ok v := by
  match b, h with
  | [b0, b1, b2, b3], _ => exact ⟨_, rfl⟩



/-- C10: for every Open Session Request, the accepted-maximum-privilege byte
(the third byte, index 2) of the Open Session Response is the constant 4 and
the stored privilege level is 4, whatever privilege the request asked for. -/
theorem claim_C10_openresp_priv_constant (request rand4 : Bytes)
    (s : ServerSession) (tag : Nat) (h : request[0]? = some tag) :
    (create_open_session_response request rand4 s).map
      (fun p => (p.2[2]?, p.1.privlevel)) = Except.ok (some 4, 4) := by
  rw [open_session_response_spec request rand4 s tag h]
  rfl

/-- C10 witness at a concrete request asking for privilege 4. -/
theorem claim_C10_witness :
    (create_open_session_response [170, 4, 0, 0, 1, 2, 3, 4] [9, 9, 9, 9] s0Test).map
      (fun p => (p.2[2]?, p.1.privlevel)) = Except.ok (some 4, 4) :=
  claim_C10_openresp_priv_constant [170, 4, 0, 0, 1, 2, 3, 4] [9, 9, 9, 9] s0Test 170 rfl

/-- C8 counterexample: with the four random bytes all zero the emitted
managed session id is zero (the claim requires it non-zero), and the
algorithm field (fifth byte) of the confidentiality record is 1, not 2. -/
theorem claim_C8_counterexample :
    (create_open_session_response [170, 4, 0, 0, 1, 2, 3, 4] [0, 0, 0, 0] s0Test).map
      (fun p => ((p.2.drop 8).take 4, (p.2.drop 28, p.2[32]?))) =
      Except.ok ([0, 0, 0, 0], ([2, 0, 0, 8, 1, 0, 0, 0], some 1)) := rfl

/-- C8 amended: the Open Session Response echoes the tag, has status 0,
privilege 4, a reserved byte, the echoed client session id, then the four
random bytes drawn for the managed session id (not checked to be non-zero),
then the three 8-byte records with record types 0, 1, 2, each carrying
algorithm 1 in its algorithm field. -/
theorem claim_C8_open_session_response (request rand4 : Bytes)
    (s : ServerSession) (tag : Nat) (h : request[0]? = some tag) :
    create_open_session_response request rand4 s =
      Except.ok ({ s with clientsessionid := (request.drop 4).take 4,
                          managedsessionid := rand4, privlevel := 4 },
        [tag, 0, 4, 0] ++ (request.drop 4).take 4 ++ rand4
          ++ [0, 0, 0, 8, 1, 0, 0, 0,
              1, 0, 0, 8, 1, 0, 0, 0,
              2, 0, 0, 8, 1, 0, 0, 0]) :=
  open_session_response_spec request rand4 s tag h

/-- C8 witness at a concrete request. -/
theorem claim_C8_witness :
    create_open_session_response [170, 4, 0, 0, 1, 2, 3, 4] [9, 9, 9, 9] s0Test =
      Except.ok ({ s0Test with clientsessionid := [1, 2, 3, 4],
                               managedsessionid := [9, 9, 9, 9], privlevel := 4 },
        [170, 0, 4, 0, 1, 2, 3, 4, 9, 9, 9, 9,
         0, 0, 0, 8, 1, 0, 0, 0, 1, 0, 0, 8, 1, 0, 0, 0,
         2, 0, 0, 8, 1, 0, 0, 0]) :=
  claim_C8_open_session_response [170, 4, 0, 0, 1, 2, 3, 4] [9, 9, 9, 9] s0Test 170 rfl

/-- C3: a RAKP1 whose name-present byte is nonzero and whose username is in
the credential store is answered by exactly one RAKP2 of the claimed shape:
tag, status 0, two reserved bytes, client session id, the 16 random bytes
`R_c`, the 16-byte UUID, and the 20-byte HMAC-SHA1 authcode over
`client_sid || managed_sid || R_m || R_c || uuid || [role_m, |u|] || u`;
the whole payload is 60 bytes. -/
theorem claim_C3_rakp2_reply (hm : Bytes → Bytes → Bytes) (data rand16 : Bytes)
    (s : ServerSession) (tag ro np : Nat) (pw : Bytes)
    (h0 : data[0]? = some tag) (h24 : data[24]? = some ro)
    (h27 : data[27]? = some np) (hnp : np ≠ 0)
    (hlook : s.authdata.lookup (data.drop 28) = some pw)
    (hhm : ∀ k d, (hm k d).length = 20)
    (hr : rand16.length = 16) (huu : s.uuid.length = 16)
    (hcs : s.clientsessionid.length = 4) :
    ∃ s1, got_rakp1 hm data rand16 s =
        Except.ok (s1,
          [⟨[tag, 0, 0, 0] ++ s.clientsessionid ++ rand16 ++ s.uuid
              ++ hm pw (s.clientsessionid ++ s.managedsessionid
                ++ (data.drop 8).take 16 ++ rand16 ++ s.uuid
                ++ [ro, (data.drop 28).length] ++ data.drop 28), 0x13⟩])
      ∧ ([tag, 0, 0, 0] ++ s.clientsessionid ++ rand16 ++ s.uuid
          ++ hm pw (s.clientsessionid ++ s.managedsessionid
            ++ (data.drop 8).take 16 ++ rand16 ++ s.uuid
            ++ [ro, (data.drop 28).length] ++ data.drop 28)).length = 60 := by
  refine ⟨_, got_rakp1_spec hm data rand16 s tag ro np pw h0 h24 h27 hnp hlook, ?_⟩
  simp [hhm, hr, huu, hcs]

/-- C3 witness on a concrete RAKP1 packet with username `[117]`. -/
theorem claim_C3_witness :
    ∃ s1, got_rakp1 hm20Test dataRakp1Test (List.replicate 16 2) sC3Test =
        Except.ok (s1,
          [⟨[1, 0, 0, 0] ++ [1, 2, 3, 4] ++ List.replicate 16 2
              ++ List.replicate 16 9 ++ List.replicate 20 0, 0x13⟩])
      ∧ ([1, 0, 0, 0] ++ [1, 2, 3, 4] ++ List.replicate 16 2
          ++ List.replicate 16 9 ++ List.replicate 20 0).length = 60 :=
  claim_C3_rakp2_reply hm20Test dataRakp1Test (List.replicate 16 2) sC3Test
    1 4 1 [112] rfl rfl rfl (by decide) rfl (fun _ _ => rfl) rfl rfl rfl

/-- C2: across a successful RAKP1 followed by any completed RAKP3, the
derived keys are exactly `SIK = HMAC-SHA1(k_g, R_m || R_c || [role_m, |u|]
|| u)`, `K1 = HMAC-SHA1(SIK, 0x01×20)`, `K2 = HMAC-SHA1(SIK, 0x02×20)`,
`AES_KEY = K2[0..16]`, where `k_g` is the configured integrity key or, when
none is configured, `k_uid`. -/
theorem claim_C2_key_schedule (hm : Bytes → Bytes → Bytes)
    (data1 rand16 data3 : Bytes) (s0 s1 s2 : ServerSession)
    (out1 out3 : List Emit) (tag ro np : Nat) (pw : Bytes)
    (h0 : data1[0]? = some tag) (h24 : data1[24]? = some ro)
    (h27 : data1[27]? = some np) (hnp : np ≠ 0)
    (hlook : s0.authdata.lookup (data1.drop 28) = some pw)
    (h1 : got_rakp1 hm data1 rand16 s0 = Except.ok (s1, out1))
    (h3 : got_rakp3 hm data3 s1 = Except.ok (s2, out3)) :
    s2.sik = some (spec_SIK hm (s0.kg.getD pw) ((data1.drop 8).take 16) rand16 ro (data1.drop 28))
    ∧ s2.k1 = some (spec_K1 hm (spec_SIK hm (s0.kg.getD pw) ((data1.drop 8).take 16) rand16 ro (data1.drop 28)))
    ∧ s2.k2 = some (spec_K2 hm (spec_SIK hm (s0.kg.getD pw) ((data1.drop 8).take 16) rand16 ro (data1.drop 28)))
    ∧ s2.aeskey = some (spec_AESKey (spec_K2 hm (spec_SIK hm (s0.kg.getD pw) ((data1.drop 8).take 16) rand16 ro (data1.drop 28)))) := by
  rw [got_rakp1_spec hm data1 rand16 s0 tag ro np pw h0 h24 h27 hnp hlook] at h1
  cases h1
  exact got_rakp3_keys hm data3 _ s2 out3 _ _ _ _ _ _ rfl rfl rfl rfl rfl rfl h3

/-- C2 witness: concrete RAKP1 then a RAKP3 processed at the resulting
state. -/
theorem claim_C2_witness :
    s2Test.sik = some (spec_SIK hmTest [112] (List.replicate 16 0) [] 4 [117])
    ∧ s2Test.k1 = some (spec_K1 hmTest (spec_SIK hmTest [112] (List.replicate 16 0) [] 4 [117]))
    ∧ s2Test.k2 = some (spec_K2 hmTest (spec_SIK hmTest [112] (List.replicate 16 0) [] 4 [117]))
    ∧ s2Test.aeskey = some (spec_AESKey (spec_K2 hmTest (spec_SIK hmTest [112] (List.replicate 16 0) [] 4 [117]))) :=
  claim_C2_key_schedule hmTest dataRakp1Test [] [] s0Test s1Test s2Test
    [⟨[1, 0, 0, 0, 7], 0x13⟩] [] 1 4 1 [112] rfl rfl rfl (by decide) rfl rfl rfl



/-- C1: at a session that completed RAKP1, a RAKP3 whose authcode bytes
equal `HMAC-SHA1(k_uid, R_c || client_sid || [role_m, |u|] || u)` and whose
status byte is 0 is answered by exactly one RAKP4 whose trailer is the first
12 bytes of `HMAC-SHA1(SIK, R_m || managed_session_id || uuid)`, and the
session becomes active; on any other authcode, or a nonzero status, nothing
is emitted and the active flag is unchanged. -/
theorem claim_C1_rakp3_gate (hm : Bytes → Bytes → Bytes) (data : Bytes)
    (s : ServerSession) (rm rc u kgv ku ud : Bytes) (ro tag st : Nat)
    (hRm : s.Rm = some rm) (hRc : s.Rc = some rc) (hkg : s.kg = some kgv)
    (hro : s.rolem = some ro) (hu : s.username = some u) (hku : s.kuid = some ku)
    (hud : s.uuiddata = some ud)
    (hcs : s.clientsessionid.length = 4) (hms : s.managedsessionid.length = 4)
    (h0 : data[0]? = some tag) (h1 : data[1]? = some st) :
    (data.drop 8 = hm ku (rc ++ s.clientsessionid ++ [ro, u.length] ++ u) ∧ st = 0 →
      ∃ s2, got_rakp3 hm data s =
          Except.ok (s2,
            [⟨[tag, 0, 0, 0] ++ s.clientsessionid
               ++ (hm (spec_SIK hm kgv rm rc ro u)
                     (rm ++ s.managedsessionid ++ ud)).take 12, 0x15⟩])
        ∧ s2.active = true)
    ∧ (¬(data.drop 8 = hm ku (rc ++ s.clientsessionid ++ [ro, u.length] ++ u) ∧ st = 0) →
      ∃ s2, got_rakp3 hm data s = Except.ok (s2, []) ∧ s2.active = s.active) := by
  constructor
  · rintro ⟨heq, hst⟩
    subst hst
    obtain ⟨msid, hmsid⟩ := unpackLEu32_ok s.managedsessionid hms
    obtain ⟨csid, hcsid⟩ := unpackLEu32_ok s.clientsessionid hcs
    exact ⟨_, got_rakp3_good hm data s rm rc u kgv ku ud ro tag msid csid
      hRm hRc hkg hro hu hku hud heq.symm h0 h1 hmsid hcsid, rfl⟩
  · intro hn
    by_cases heq : data.drop 8 = hm ku (rc ++ s.clientsessionid ++ [ro, u.length] ++ u)
    · have hst : st ≠ 0 := fun hs => hn ⟨heq, hs⟩
      exact ⟨_, got_rakp3_drop_badstatus hm data s rm rc u kgv ku ro tag st
        hRm hRc hkg hro hu hku h0 h1 hst, rfl⟩
    · exact ⟨_, got_rakp3_drop_mismatch hm data s rm rc u kgv ku ro
        hRm hRc hkg hro hu hku (fun he => heq he.symm), rfl⟩

/-- C1 witness: concrete RAKP3 with matching authcode and status 0 yields
the RAKP4 and an active session. -/
theorem claim_C1_witness :
    (got_rakp3 hmTest [9, 0, 0, 0, 0, 0, 0, 0, 7] sC1Test).map
      (fun p => (p.2, p.1.active)) =
      Except.ok ([⟨[9, 0, 0, 0, 1, 2, 3, 4, 7], 0x15⟩], true) := by
  obtain ⟨s2, hres, hact⟩ :=
    (claim_C1_rakp3_gate hmTest [9, 0, 0, 0, 0, 0, 0, 0, 7] sC1Test
      (List.replicate 16 0) [] [117] [112] [112] [] 4 9 0
      rfl rfl rfl rfl rfl rfl rfl rfl rfl rfl rfl).1 ⟨rfl, rfl⟩
  rw [hres]
  simp [Except.map, hact, sC1Test, s1Test, s0Test, initSession, hmTest, spec_SIK]

/-- C4 counterexample: a concrete RAKP1 followed by a RAKP3 whose authcode
does not verify leaves `sik`, `k1`, `k2`, `aeskey` populated although the
session is not active. -/
theorem claim_C4_counterexample :
    got_rakp1 hmTest dataRakp1Test [] s0Test =
        Except.ok (s1Test, [⟨[1, 0, 0, 0, 7], 0x13⟩])
    ∧ got_rakp3 hmTest [] s1Test = Except.ok (s2Test, [])
    ∧ s2Test.sik.isSome = true ∧ s2Test.k1.isSome = true
    ∧ s2Test.k2.isSome = true ∧ s2Test.aeskey.isSome = true
    ∧ s2Test.active = false :=
  ⟨rfl, rfl, rfl, rfl, rfl, rfl, rfl⟩

/-- C4 amended: processing any RAKP3 at a post-RAKP1 session populates
`sik`, `k1`, `k2` and `aeskey`, whether or not the authcode verifies and
whether or not the session becomes active. -/
theorem claim_C4_keys_always_populated (hm : Bytes → Bytes → Bytes)
    (data : Bytes) (s s2 : ServerSession) (out : List Emit)
    (rm rc u kgv ku : Bytes) (ro : Nat)
    (hRm : s.Rm = some rm) (hRc : s.Rc = some rc) (hkg : s.kg = some kgv)
    (hro : s.rolem = some ro) (hu : s.username = some u) (hku : s.kuid = some ku)
    (h : got_rakp3 hm data s = Except.ok (s2, out)) :
    s2.sik.isSome = true ∧ s2.k1.isSome = true
    ∧ s2.k2.isSome = true ∧ s2.aeskey.isSome = true := by
  obtain ⟨a, b, c, d⟩ :=
    got_rakp3_keys hm data s s2 out rm rc u kgv ku ro hRm hRc hkg hro hu hku h
  simp [a, b, c, d]

/-- C4 witness: the keys are populated after a failed RAKP3. -/
theorem claim_C4_witness :
    s2Test.sik.isSome = true ∧ s2Test.k1.isSome = true
    ∧ s2Test.k2.isSome = true ∧ s2Test.aeskey.isSome = true :=
  claim_C4_keys_always_populated hmTest [] s1Test s2Test []
    (List.replicate 16 0) [] [117] [112] [112] 4 rfl rfl rfl rfl rfl rfl rfl

/-- C6 counterexample: after Close Session is handled (completion 0), the
very same session object still handles the next request — it is not
destroyed; `close_server_session` changes nothing. -/
theorem claim_C6_counterexample :
    handle_client_request ⟨6, 0x3c, []⟩ s1Test =
        Except.ok ({ s1Test with sequencenumber := 1 }, [⟨0, []⟩])
    ∧ handle_client_request ⟨6, 0x3c, []⟩ { s1Test with sequencenumber := 1 } =
        Except.ok ({ s1Test with sequencenumber := 2 }, [⟨0, []⟩])
    ∧ close_server_session s1Test = s1Test :=
  ⟨rfl, rfl, rfl⟩

/-- C6 amended: Close Session responds with completion code 0 and empty
data, and then calls `close_server_session`, which is a no-op: the session
state (beyond the sequence number bump of the response) is unchanged and the
session keeps handling packets. -/
theorem claim_C6_close_session (s : ServerSession) (req : IpmiRequest)
    (hn : req.netfn = 6) (hc : req.command = 0x3c) :
    handle_client_request req s =
      Except.ok (close_server_session { s with sequencenumber := s.sequencenumber + 1 },
        [⟨0, []⟩])
    ∧ close_server_session { s with sequencenumber := s.sequencenumber + 1 } =
      { s with sequencenumber := s.sequencenumber + 1 } := by
  obtain ⟨n, c, d⟩ := req
  simp only at hn hc
  subst hn; subst hc
  exact ⟨by simp [handle_client_request, send_ipmi_response,
    send_ipmi_net_payload, close_server_session, bind, Except.bind,
    pure, Except.pure], rfl⟩

/-- C6 witness at a concrete session. -/
theorem claim_C6_witness :
    handle_client_request ⟨6, 0x3c, []⟩ s1Test =
      Except.ok (close_server_session { s1Test with sequencenumber := 1 }, [⟨0, []⟩])
    ∧ close_server_session { s1Test with sequencenumber := 1 } =
      { s1Test with sequencenumber := 1 } :=
  claim_C6_close_session s1Test ⟨6, 0x3c, []⟩ rfl rfl

/-- C7 counterexample: a privilege request exceeding `maxpriv` at a session
where no privilege was ever set raises `AttributeError` instead of
responding 0x81; and a request with `p = 1` does not set the privilege to 1
— it echoes the old privilege 3 with completion 0. -/
theorem claim_C7_counterexample :
    handle_client_request ⟨6, 0x3b, [4]⟩ { s1Test with maxpriv := some 2 } =
        Except.error (PyErr.attributeError "clientpriv")
    ∧ handle_client_request ⟨6, 0x3b, [1]⟩ sPrivTest =
        Except.ok ({ sPrivTest with sequencenumber := 1 }, [⟨0, [3]⟩]) :=
  ⟨rfl, rfl⟩

/-- C7 amended: for Set Session Privilege Level with `p = data[0]`: if
`p > 1` and `p > maxpriv`, the server answers 0x81 echoing the current
privilege — raising `AttributeError` when none was ever set; if
`1 < p ≤ maxpriv` it sets the privilege to `p` and answers 0 with `[p]`;
if `p ≤ 1` it leaves the privilege unchanged and answers 0 echoing the
current privilege — again failing when none was ever set. -/
theorem claim_C7_set_priv (s : ServerSession) (p m : Nat)
    (hm : s.maxpriv = some m) :
    handle_client_request ⟨6, 0x3b, [p]⟩ s =
      if p > 1 ∧ p > m then
        match s.clientpriv with
        | some cp => Except.ok ({ s with sequencenumber := s.sequencenumber + 1 },
            [⟨0x81, [cp]⟩])
        | none => Except.error (PyErr.attributeError "clientpriv")
      else if p > 1 then
        Except.ok ({ s with clientpriv := some p,
                            sequencenumber := s.sequencenumber + 1 }, [⟨0, [p]⟩])
      else
        match s.clientpriv with
        | some cp => Except.ok ({ s with sequencenumber := s.sequencenumber + 1 },
            [⟨0, [cp]⟩])
        | none => Except.error (PyErr.attributeError "clientpriv") := by
  by_cases h1 : p > 1
  · by_cases h2 : p > m
    · cases hcp : s.clientpriv <;>
        simp [handle_client_request, idx, attr, hm, hcp, h1, h2,
          send_ipmi_net_payload, bind, Except.bind, pure, Except.pure]
    · cases hcp : s.clientpriv <;>
        simp [handle_client_request, idx, attr, hm, hcp, h1, h2,
          send_ipmi_net_payload, bind, Except.bind, pure, Except.pure]
  · cases hcp : s.clientpriv <;>
      simp [handle_client_request, idx, attr, hm, hcp, h1,
        send_ipmi_net_payload, bind, Except.bind, pure, Except.pure]

/-- C7 witness: `p = 2` within the limit sets the privilege and echoes it. -/
theorem claim_C7_witness :
    handle_client_request ⟨6, 0x3b, [2]⟩ sPrivTest =
      Except.ok ({ sPrivTest with clientpriv := some 2, sequencenumber := 1 },
        [⟨0, [2]⟩]) := by
  have h := claim_C7_set_priv sPrivTest 2 2 rfl
  simpa using h

/-- C9 counterexample: a RAKP3 arriving at a session that never processed a
RAKP1 raises `AttributeError` (reading the unset `Rm`) instead of being
silently dropped. -/
theorem claim_C9_counterexample :
    got_rakp3 hmTest [0, 0, 0, 0, 0, 0, 0, 0] sOpenTest =
      Except.error (PyErr.attributeError "Rm") := rfl

/-- C9 amended: a RAKP3 at any session whose `Rm` was never set (no RAKP1
processed) raises `AttributeError` from the first attribute read: nothing is
emitted and no session field was assigned before the raise, but the error
propagates out of the RAKP3 handler. -/
theorem claim_C9_rakp3_before_rakp1 (hm : Bytes → Bytes → Bytes)
    (data : Bytes) (s : ServerSession) (h : s.Rm = none) :
    got_rakp3 hm data s = Except.error (PyErr.attributeError "Rm") := by
  simp [got_rakp3, attr, h, bind, Except.bind]

/-- C9 witness at a fresh session with a configured `kg`. -/
theorem claim_C9_witness :
    got_rakp3 hmTest [] (initSession [] (some [1]) []) =
      Except.error (PyErr.attributeError "Rm") :=
  claim_C9_rakp3_before_rakp1 hmTest [] (initSession [] (some [1]) []) rfl

end Pyghmi
